import Mathlib

/-!
Shallow embedding of the reinforcement logic of
`IPC_DefenderSpawnPointComponent` (IPC AI Combat Extended, canonical
4-wave / direct-spawn / frontline-aware variant), together with proofs of
the testable properties stated for it.

Modelling conventions:
* `WorldTimestamp` values are integers counting milliseconds; an unset
  (engine-default) timestamp is modelled as `Option` where the source
  tests truthiness; `DiffMilliseconds` is subtraction, and a source
  comparison `DiffMilliseconds(..)/1000.0 OP thresholdSeconds` is
  embedded as the exactly equivalent millisecond comparison
  `diffMs OP thresholdSeconds * 1000` (both sides scaled by the positive
  constant 1000), keeping every definition kernel-evaluable.
* External collaborators (world, player manager, game mode, spawn
  results) appear as explicit inputs to each tick, mirroring the null
  checks of the source.
* Entity identity (factions, bases, group handles) is modelled by
  numeric identifiers compared for equality, matching the source's
  reference-identity comparisons.
-/

namespace IPC

abbrev Timestamp := Int

abbrev Vec3 := Int × Int × Int

/-- `vector.DistanceSq` between two positions. -/
def distanceSq (p q : Vec3) : Int :=
  (p.1 - q.1) ^ 2 + (p.2.1 - q.2.1) ^ 2 + (p.2.2 - q.2.2) ^ 2

/-! ### Configuration constants (source lines 30-57) -/

def INACTIVE_GRACE_PERIOD : Int := 600

def FRONTLINE_RANGE : Int := 2000

def REINFORCEMENT_WAVE1_THRESHOLD : Int := 300

def REINFORCEMENT_WAVE2_THRESHOLD : Int := 600

def REINFORCEMENT_WAVE3_THRESHOLD : Int := 900

def REINFORCEMENT_WAVE4_THRESHOLD : Int := 1200

def COMBAT_DETECTION_RANGE : Int := 300

def REINFORCEMENT_GROUP_COUNT : Nat := 1

def DEBUG_MODE : Bool := false

def DEBUG_WAVE_INTERVAL : Int := 60

/-- `GetWaveThreshold` (source lines 168-186): wave threshold in seconds,
depending on the compile-time debug flag. -/
def GetWaveThreshold (debugMode : Bool) (waveNumber : Int) : Int :=
  if debugMode then
    waveNumber * DEBUG_WAVE_INTERVAL
  else if waveNumber = 1 then REINFORCEMENT_WAVE1_THRESHOLD
  else if waveNumber = 2 then REINFORCEMENT_WAVE2_THRESHOLD
  else if waveNumber = 3 then REINFORCEMENT_WAVE3_THRESHOLD
  else if waveNumber = 4 then REINFORCEMENT_WAVE4_THRESHOLD
  else 999999

/-! ### Combat detection (`DetectCombatAtBase`, source lines 253-299) -/

/-- One entry of the player registry, as the detector inspects it:
whether the id resolves to a controlled entity, whether that entity has a
character controller and is dead, whether it casts to a chimera
character, its faction reference (by identity) and its position. -/
structure PlayerM where
  hasEntity : Bool
  hasController : Bool
  isDead : Bool
  isCharacter : Bool
  faction : Option Int
  pos : Vec3
  deriving DecidableEq, Repr

/-- A strongpoint (`SCR_CampaignMilitaryBaseComponent`): controlling
faction (nullable, by identity) and world position of its owner entity. -/
structure BaseM where
  faction : Option Int
  pos : Vec3
  deriving DecidableEq, Repr

/-- The per-player skip/accept conditions of the detector loop body
(source lines 273-296): resolve entity, alive, enemy faction by
identity, strictly within detection range of the base. -/
def isAttackingPlayer (myFaction : Option Int) (basePos : Vec3) (p : PlayerM) : Bool :=
  p.hasEntity && p.hasController && !p.isDead && p.isCharacter &&
    (match p.faction with
     | none => false
     | some pf => !(some pf = myFaction)) &&
    decide (distanceSq p.pos basePos < COMBAT_DETECTION_RANGE * COMBAT_DETECTION_RANGE)

/-- `DetectCombatAtBase` (source lines 253-299). `nearBase` is
`m_nearBase`, `myFaction` is `m_Faction` (identity), `playerManager` is
the resolvable player registry. -/
def DetectCombatAtBase (nearBase : Option BaseM) (myFaction : Option Int)
    (playerManager : Option (List PlayerM)) : Bool :=
  match nearBase with
  | none => false
  | some base =>
    match base.faction with
    | none => false
    | some bf =>
      if !(myFaction = some bf) then false
      else
        match playerManager with
        | none => false
        | some players =>
          players.any (isAttackingPlayer myFaction base.pos)

/-! ### Reinforcement state machine (source lines 16-27, 191-225, 304-392, 397-568, 1045-1058) -/

/-- The mutable reinforcement tracking fields of the component
(source lines 16-27). Group/helicopter handles are the tracked
`SpawnedWaveAssets`. -/
structure ReinforcementState where
  combatStartTime : Option Timestamp := none
  reinforcementActive : Bool := false
  reinforcementWave : Int := 0
  lastReinforcementTime : Option Timestamp := none
  reinforcementGroups : List Nat := []
  reinforcementHelicopters : List Nat := []
  deriving DecidableEq, Repr

/-- The component's field-initializer state. -/
def initState : ReinforcementState := {}

/-- External inputs consumed by one coordinator tick: whether the world
resolves, the server timestamp, the detector result, and the outcomes of
the successive `SpawnReinforcementGroup` / `SpawnArmedHelicopter` calls
the tick would make (a `some` handle on success, `none` on the failure
paths of those functions). -/
structure TickInput where
  worldOk : Bool
  now : Timestamp
  combatActive : Bool
  spawnResults : List (Option Nat)
  heliResult : Option Nat
  deriving DecidableEq, Repr

/-- `DespawnPreviousWaveGroups` (source lines 191-225): deletes every
still-live tracked group and helicopter and clears both tracking
arrays. -/
def DespawnPreviousWaveGroups (s : ReinforcementState) : ReinforcementState :=
  { s with reinforcementGroups := [], reinforcementHelicopters := [] }

/-- `TriggerReinforcements` (source lines 397-568). The previous wave is
despawned only under `debugMode`; the last-wave timestamp and wave
number are then recorded, and the wave's spawn calls append the
successful handles to the tracking arrays (wave 4 spawns one
helicopter, wave 3 makes two group-spawn calls, waves 1 and 2 make
`REINFORCEMENT_GROUP_COUNT` group-spawn calls). -/
def TriggerReinforcements (debugMode : Bool) (worldOk : Bool) (now : Timestamp)
    (spawnResults : List (Option Nat)) (heliResult : Option Nat)
    (wave : Int) (s : ReinforcementState) : ReinforcementState :=
  if !worldOk then s
  else
    let s1 := if debugMode then DespawnPreviousWaveGroups s else s
    let s2 := { s1 with lastReinforcementTime := some now, reinforcementWave := wave }
    if wave = 4 then
      match heliResult with
      | some h => { s2 with reinforcementHelicopters := s2.reinforcementHelicopters ++ [h] }
      | none => s2
    else if wave = 3 then
      { s2 with reinforcementGroups :=
          s2.reinforcementGroups ++ (spawnResults.take 2).reduceOption }
    else
      { s2 with reinforcementGroups :=
          s2.reinforcementGroups ++ (spawnResults.take REINFORCEMENT_GROUP_COUNT).reduceOption }

/-- `ResetReinforcementState` (source lines 1045-1058): clears the
active flag and the wave counter; despawns tracked assets only under
`debugMode`. It touches neither `combatStartTime` nor
`lastReinforcementTime`. -/
def ResetReinforcementState (debugMode : Bool) (s : ReinforcementState) : ReinforcementState :=
  let s1 := { s with reinforcementActive := false, reinforcementWave := 0 }
  if debugMode then DespawnPreviousWaveGroups s1 else s1

/-- `UpdateReinforcementState` (source lines 304-392), instrumented to
also report which wave (if any) fired this tick. An unset
`WorldTimestamp` reads as 0 milliseconds (`getD 0`), matching engine
semantics; durations are compared in milliseconds against the
second-valued thresholds scaled by 1000 (exactly equivalent to the
source's division by 1000.0); the wave dispatch checks wave 3, then 2,
then 1 (the wave-4 branch is commented out in the source). -/
def UpdateReinforcementStateFired (debugMode : Bool) (inp : TickInput)
    (s : ReinforcementState) : ReinforcementState × Option Int :=
  if !inp.worldOk then (s, none)
  else
    let currentTime := inp.now
    let s1 :=
      if inp.combatActive && !s.reinforcementActive then
        { s with combatStartTime := some currentTime, reinforcementActive := true }
      else s
    if !inp.combatActive && s1.reinforcementActive then
      (ResetReinforcementState debugMode s1, none)
    else if s1.reinforcementActive then
      let combatDuration := currentTime - s1.combatStartTime.getD 0
      let inCooldown :=
        match s1.lastReinforcementTime with
        | some t0 => decide (currentTime - t0 < 10 * 1000)
        | none => false
      if inCooldown then (s1, none)
      else if s1.reinforcementWave < 3 ∧ GetWaveThreshold debugMode 3 * 1000 ≤ combatDuration then
        (TriggerReinforcements debugMode inp.worldOk currentTime inp.spawnResults inp.heliResult 3 s1,
         some 3)
      else if s1.reinforcementWave < 2 ∧ GetWaveThreshold debugMode 2 * 1000 ≤ combatDuration then
        (TriggerReinforcements debugMode inp.worldOk currentTime inp.spawnResults inp.heliResult 2 s1,
         some 2)
      else if s1.reinforcementWave < 1 ∧ GetWaveThreshold debugMode 1 * 1000 ≤ combatDuration then
        (TriggerReinforcements debugMode inp.worldOk currentTime inp.spawnResults inp.heliResult 1 s1,
         some 1)
      else (s1, none)
    else (s1, none)

/-- The state component of one tick. -/
def UpdateReinforcementState (debugMode : Bool) (inp : TickInput)
    (s : ReinforcementState) : ReinforcementState :=
  (UpdateReinforcementStateFired debugMode inp s).1

/-- The wave (if any) that fired during one tick. -/
def firedWave (debugMode : Bool) (inp : TickInput) (s : ReinforcementState) : Option Int :=
  (UpdateReinforcementStateFired debugMode inp s).2

/-- Run a sequence of coordinator ticks. -/
def runTicks (debugMode : Bool) (s : ReinforcementState) (l : List TickInput) :
    ReinforcementState :=
  l.foldl (fun s i => UpdateReinforcementState debugMode i s) s

/-! ### Lifecycle guard (source lines 1063-1114, 1119-1149, 1154-1190) -/

/-- `IsBaseFriendly` (source lines 1119-1149): the base has a faction
and at least one resolvable player character is on that faction
(identity comparison). -/
def IsBaseFriendly (base : BaseM) (playerManager : Option (List PlayerM)) : Bool :=
  match base.faction with
  | none => false
  | some bf =>
    match playerManager with
    | none => false
    | some players =>
      players.any (fun p => p.hasEntity && p.isCharacter && decide (p.faction = some bf))

/-- Collaborators consulted by `IsBaseOnFrontline`: the campaign game
mode, its base manager, the campaign faction manager, the cast of
`m_Faction` to a campaign faction, and (when the enemy faction
resolves) the positions of that faction's bases. -/
structure FrontlineEnv where
  gameModeOk : Bool
  baseManagerOk : Bool
  factionManagerOk : Bool
  campaignFactionOk : Bool
  enemyFaction : Option (List Vec3)
  deriving DecidableEq, Repr

/-- `IsBaseOnFrontline` (source lines 1154-1190): every unresolved
collaborator yields `true`; otherwise the base is frontline iff some
enemy-held base lies strictly within `FRONTLINE_RANGE` (the source's
`vector.Distance(...) < FRONTLINE_RANGE` is encoded squared to stay in
exact arithmetic). -/
def IsBaseOnFrontline (env : FrontlineEnv) (basePos : Vec3) : Bool :=
  if !env.gameModeOk then true
  else if !env.baseManagerOk then true
  else if !env.factionManagerOk then true
  else if !env.campaignFactionOk then true
  else
    match env.enemyFaction with
    | none => true
    | some enemyBasePositions =>
      enemyBasePositions.any (fun ePos =>
        decide (distanceSq basePos ePos < FRONTLINE_RANGE * FRONTLINE_RANGE))

/-- External inputs consumed by one `ShouldKeepDefendersActive`
evaluation. -/
structure GuardTick where
  base : Option BaseM
  playerManager : Option (List PlayerM)
  env : FrontlineEnv
  worldOk : Bool
  now : Timestamp
  deriving DecidableEq, Repr

/-- `ShouldKeepDefendersActive` (source lines 1063-1114): result
together with the updated `m_tInactiveSince` timer. Non-friendly bases
are always kept active; a frontline classification clears the timer; a
first non-frontline observation starts it; the guard answers `false`
once the timer's age reaches `INACTIVE_GRACE_PERIOD` seconds. -/
def ShouldKeepDefendersActive (g : GuardTick) (inactiveSince : Option Timestamp) :
    Bool × Option Timestamp :=
  match g.base with
  | none => (false, inactiveSince)
  | some base =>
    if !IsBaseFriendly base g.playerManager then (true, inactiveSince)
    else if IsBaseOnFrontline g.env base.pos then (true, none)
    else if !g.worldOk then (true, inactiveSince)
    else
      match inactiveSince with
      | none => (true, some g.now)
      | some t0 =>
        if INACTIVE_GRACE_PERIOD * 1000 ≤ g.now - t0 then (false, some t0)
        else (true, some t0)

/-- Frontline classification of one guard tick: the result
`IsBaseOnFrontline` would give for its resolved base (`false` when the
base is unresolved, in which case the guard never consults it). -/
def frontlineAt (g : GuardTick) : Bool :=
  match g.base with
  | none => false
  | some base => IsBaseOnFrontline g.env base.pos

/-- Thread the inactivity timer through a sequence of guard
evaluations. -/
def guardRun (l : List GuardTick) (st : Option Timestamp) : Option Timestamp :=
  l.foldl (fun st g => (ShouldKeepDefendersActive g st).2) st

/-! ### Coordinator election (`InitializeReinforcementCoordinator`, source lines 103-155) -/

/-- One registered spawn point as the election inspects it: its owner
entity id, its resolved base (by identity), and whether it casts to a
defender spawn-point component. -/
structure SpawnPointM where
  entityId : Int
  nearBase : Option Nat
  isDefender : Bool
  deriving DecidableEq, Repr

/-- `InitializeReinforcementCoordinator` (source lines 103-155),
returning the `m_bIsReinforcementCoordinator` flag it computes for
`me`. The early-return paths (no base, no capture system, empty
registry) leave the flag at its initialized value `false`. The election
folds the minimum entity id over every registered defender point bound
to the same base, seeded with `me`'s own id. -/
def InitializeReinforcementCoordinator (me : SpawnPointM) (systemOk : Bool)
    (allSpawnPoints : List SpawnPointM) : Bool :=
  match me.nearBase with
  | none => false
  | some _ =>
    if !systemOk then false
    else if allSpawnPoints.isEmpty then false
    else
      let lowestIdForBase := allSpawnPoints.foldl
        (fun low sp =>
          if sp.isDefender && decide (sp.nearBase = me.nearBase) && decide (sp.entityId < low)
          then sp.entityId else low)
        me.entityId
      decide (me.entityId = lowestIdForBase)

/-! ### Helper lemmas about the state machine -/

lemma trigger_reinforcementActive (d w : Bool) (n : Timestamp) (sr : List (Option Nat))
    (hr : Option Nat) (wave : Int) (s : ReinforcementState) :
    (TriggerReinforcements d w n sr hr wave s).reinforcementActive = s.reinforcementActive := by
  unfold TriggerReinforcements DespawnPreviousWaveGroups
  repeat' split
  all_goals rfl

lemma trigger_combatStartTime (d w : Bool) (n : Timestamp) (sr : List (Option Nat))
    (hr : Option Nat) (wave : Int) (s : ReinforcementState) :
    (TriggerReinforcements d w n sr hr wave s).combatStartTime = s.combatStartTime := by
  unfold TriggerReinforcements DespawnPreviousWaveGroups
  repeat' split
  all_goals rfl

lemma trigger_wave (d : Bool) (n : Timestamp) (sr : List (Option Nat))
    (hr : Option Nat) (wave : Int) (s : ReinforcementState) :
    (TriggerReinforcements d true n sr hr wave s).reinforcementWave = wave := by
  unfold TriggerReinforcements DespawnPreviousWaveGroups
  repeat' split
  all_goals first | rfl | simp_all

lemma trigger_last (d : Bool) (n : Timestamp) (sr : List (Option Nat))
    (hr : Option Nat) (wave : Int) (s : ReinforcementState) :
    (TriggerReinforcements d true n sr hr wave s).lastReinforcementTime = some n := by
  unfold TriggerReinforcements DespawnPreviousWaveGroups
  repeat' split
  all_goals first | rfl | simp_all

lemma reset_fields (d : Bool) (s : ReinforcementState) :
    (ResetReinforcementState d s).reinforcementActive = false ∧
    (ResetReinforcementState d s).reinforcementWave = 0 ∧
    (ResetReinforcementState d s).lastReinforcementTime = s.lastReinforcementTime ∧
    (ResetReinforcementState d s).combatStartTime = s.combatStartTime := by
  unfold ResetReinforcementState DespawnPreviousWaveGroups
  split <;> exact ⟨rfl, rfl, rfl, rfl⟩

lemma isAttackingPlayer_iff (f : Option Int) (basePos : Vec3) (p : PlayerM) :
    isAttackingPlayer f basePos p = true ↔
      p.hasEntity = true ∧ p.hasController = true ∧ p.isDead = false ∧ p.isCharacter = true ∧
      p.faction ≠ none ∧ p.faction ≠ f ∧
      distanceSq p.pos basePos < COMBAT_DETECTION_RANGE * COMBAT_DETECTION_RANGE := by
  unfold isAttackingPlayer
  cases hpf : p.faction with
  | none => simp [hpf]
  | some pf =>
    simp [hpf, and_assoc]

/-- **C7**: `DetectCombatAtBase` fails closed — an unresolved
strongpoint, an unset base faction, or an unresolvable player registry
each yield `false` — and otherwise returns `true` iff the base's
controlling faction equals the defending faction by identity and some
resolvable enemy character is alive strictly within the 300-unit
detection radius of the base position. -/
theorem detectCombat_spec :
    (∀ (f : Option Int) (pm : Option (List PlayerM)),
        DetectCombatAtBase none f pm = false) ∧
    (∀ (pos : Vec3) (f : Option Int) (pm : Option (List PlayerM)),
        DetectCombatAtBase (some { faction := none, pos := pos }) f pm = false) ∧
    (∀ (base : BaseM) (f : Option Int),
        DetectCombatAtBase (some base) f none = false) ∧
    (∀ (base : BaseM) (f : Option Int) (players : List PlayerM),
        DetectCombatAtBase (some base) f (some players) = true ↔
          base.faction ≠ none ∧ base.faction = f ∧
          ∃ p ∈ players, p.hasEntity = true ∧ p.hasController = true ∧ p.isDead = false ∧
            p.isCharacter = true ∧ p.faction ≠ none ∧ p.faction ≠ f ∧
            distanceSq p.pos base.pos < COMBAT_DETECTION_RANGE * COMBAT_DETECTION_RANGE) := by
  refine ⟨fun f pm => rfl, fun pos f pm => rfl, ?_, ?_⟩
  · intro base f
    obtain ⟨bf, pos⟩ := base
    cases bf with
    | none => rfl
    | some b => by_cases h : f = some b <;> simp [DetectCombatAtBase, h]
  · intro base f players
    obtain ⟨bf, pos⟩ := base
    cases bf with
    | none => simp [DetectCombatAtBase]
    | some b =>
      by_cases h : f = some b
      · subst h
        simp [DetectCombatAtBase, List.any_eq_true, isAttackingPlayer_iff, and_assoc]
      · have h' : ¬((some b : Option Int) = f) := fun hh => h hh.symm
        simp [DetectCombatAtBase, h, h']

/-- **C8**: for every resolved strongpoint that is not friendly-held,
`ShouldKeepDefendersActive` answers `true`, for every frontline
environment, world availability, timestamp and inactivity-timer state
(source line 1069-1070: the non-friendly early return precedes both the
frontline check and the grace-period logic). -/
theorem shouldKeep_enemyHeld_true (g : GuardTick) (base : BaseM) (st : Option Timestamp)
    (hbase : g.base = some base)
    (hfriendly : IsBaseFriendly base g.playerManager = false) :
    (ShouldKeepDefendersActive g st).1 = true := by
  unfold ShouldKeepDefendersActive
  rw [hbase]
  simp [hfriendly]

/-- Witness for `shouldKeep_enemyHeld_true`: an enemy-held base (faction
2, while the only player is on faction 1) with an expired inactivity
timer is still kept active. -/
theorem shouldKeep_enemyHeld_true_witness :
    (ShouldKeepDefendersActive
      { base := some { faction := some 2, pos := (0, 0, 0) },
        playerManager := some [{ hasEntity := true, hasController := true, isDead := false,
                                 isCharacter := true, faction := some 1, pos := (0, 0, 0) }],
        env := { gameModeOk := true, baseManagerOk := true, factionManagerOk := true,
                 campaignFactionOk := true, enemyFaction := some [] },
        worldOk := true, now := 700000 } (some 0)).1 = true :=
  shouldKeep_enemyHeld_true _ _ _ rfl (by decide)

/-- **C1** counterexample: in the shipped configuration
(`DEBUG_MODE = false`), a coordinator tick at 601 s of combat with a
wave-1 group (handle 7) still tracked fires wave 2 and spawns its group
(handle 8) *without* despawning or untracking the wave-1 asset: both
waves' assets coexist in the tracking array afterwards. -/
theorem trigger_keeps_previous_wave_counterexample :
    firedWave DEBUG_MODE
        { worldOk := true, now := 601000, combatActive := true,
          spawnResults := [some 8], heliResult := none }
        { combatStartTime := some 0, reinforcementActive := true, reinforcementWave := 1,
          lastReinforcementTime := some 0, reinforcementGroups := [7],
          reinforcementHelicopters := [] } = some 2 ∧
    (UpdateReinforcementState DEBUG_MODE
        { worldOk := true, now := 601000, combatActive := true,
          spawnResults := [some 8], heliResult := none }
        { combatStartTime := some 0, reinforcementActive := true, reinforcementWave := 1,
          lastReinforcementTime := some 0, reinforcementGroups := [7],
          reinforcementHelicopters := [] }).reinforcementGroups = [7, 8] := by
  constructor <;> rfl

/-- **C1** amended: `DespawnPreviousWaveGroups` is invoked before
spawning only when `DEBUG_MODE` is enabled; the source ships with
`DEBUG_MODE = false`, so every wave trigger preserves all previously
tracked assets and appends the new wave's successful spawns (waves
stack). Under `DEBUG_MODE = true` the previous tracking is cleared
first, so the post-trigger tracking is independent of it. -/
theorem trigger_despawn_only_in_debug :
    DEBUG_MODE = false ∧
    (∀ (now : Timestamp) (sr : List (Option Nat)) (hr : Option Nat)
       (wave : Int) (s : ReinforcementState),
       (∃ newGroups,
          (TriggerReinforcements false true now sr hr wave s).reinforcementGroups =
            s.reinforcementGroups ++ newGroups) ∧
       (∃ newHelis,
          (TriggerReinforcements false true now sr hr wave s).reinforcementHelicopters =
            s.reinforcementHelicopters ++ newHelis)) ∧
    (∀ (s : ReinforcementState),
       (DespawnPreviousWaveGroups s).reinforcementGroups = [] ∧
       (DespawnPreviousWaveGroups s).reinforcementHelicopters = []) ∧
    (∀ (now : Timestamp) (sr : List (Option Nat)) (hr : Option Nat)
       (wave : Int) (s t : ReinforcementState),
       (TriggerReinforcements true true now sr hr wave s).reinforcementGroups =
         (TriggerReinforcements true true now sr hr wave t).reinforcementGroups ∧
       (TriggerReinforcements true true now sr hr wave s).reinforcementHelicopters =
         (TriggerReinforcements true true now sr hr wave t).reinforcementHelicopters) := by
  refine ⟨rfl, ?_, fun s => ⟨rfl, rfl⟩, ?_⟩
  · intro now sr hr wave s
    unfold TriggerReinforcements DespawnPreviousWaveGroups
    constructor
    · by_cases h4 : wave = 4
      · cases hr <;> simp [h4]
      · by_cases h3 : wave = 3 <;> simp [h4, h3]
    · by_cases h4 : wave = 4
      · cases hr <;> simp [h4]
      · by_cases h3 : wave = 3 <;> simp [h4, h3]
  · intro now sr hr wave s t
    unfold TriggerReinforcements DespawnPreviousWaveGroups
    constructor
    · by_cases h4 : wave = 4
      · cases hr <;> simp [h4]
      · by_cases h3 : wave = 3 <;> simp [h4, h3]
    · by_cases h4 : wave = 4
      · cases hr <;> simp [h4]
      · by_cases h3 : wave = 3 <;> simp [h4, h3]

lemma update_master (d : Bool) (inp : TickInput) (s : ReinforcementState) :
    UpdateReinforcementStateFired d inp s = (s, none) ∨
    (∃ s1, (s1 = s ∨
            s1 = { s with combatStartTime := some inp.now, reinforcementActive := true }) ∧
      ((inp.combatActive = false ∧
          UpdateReinforcementStateFired d inp s = (ResetReinforcementState d s1, none)) ∨
       UpdateReinforcementStateFired d inp s = (s1, none) ∨
       (∃ w, (w = 1 ∨ w = 2 ∨ w = 3) ∧ s.reinforcementWave < w ∧
          inp.worldOk = true ∧ inp.combatActive = true ∧ s1.reinforcementActive = true ∧
          (∀ t0, s.lastReinforcementTime = some t0 → 10 * 1000 ≤ inp.now - t0) ∧
          UpdateReinforcementStateFired d inp s =
            (TriggerReinforcements d inp.worldOk inp.now inp.spawnResults inp.heliResult w s1,
             some w)))) := by
  unfold UpdateReinforcementStateFired
  cases hw : inp.worldOk with
  | false => left; simp [hw]
  | true =>
    cases hc : inp.combatActive with
    | false =>
      cases ha : s.reinforcementActive with
      | false => left; simp [hw, hc, ha]
      | true =>
        right
        exact ⟨s, Or.inl rfl, Or.inl ⟨rfl, by simp [hw, hc, ha]⟩⟩
    | true =>
      cases ha : s.reinforcementActive with
      | false =>
        right
        refine ⟨{ s with combatStartTime := some inp.now, reinforcementActive := true },
          Or.inr rfl, ?_⟩
        simp only [hw, hc, ha, Bool.not_true, Bool.not_false, Bool.false_and, Bool.true_and,
          Bool.and_false, Bool.and_true, Bool.and_self, if_true, if_false, ite_true, ite_false,
          Bool.false_eq_true, eq_self_iff_true, true_and]
        split
        · exact Or.inr (Or.inl rfl)
        · rename_i hcool
          split
          · rename_i hcond
            refine Or.inr (Or.inr ⟨3, Or.inr (Or.inr rfl), hcond.1, ?_, rfl⟩)
            intro t0 ht0
            rw [ht0] at hcool
            simp at hcool
            exact hcool
          · rename_i hcond3
            split
            · rename_i hcond
              refine Or.inr (Or.inr ⟨2, Or.inr (Or.inl rfl), hcond.1, ?_, rfl⟩)
              intro t0 ht0
              rw [ht0] at hcool
              simp at hcool
              exact hcool
            · rename_i hcond2
              split
              · rename_i hcond
                refine Or.inr (Or.inr ⟨1, Or.inl rfl, hcond.1, ?_, rfl⟩)
                intro t0 ht0
                rw [ht0] at hcool
                simp at hcool
                exact hcool
              · exact Or.inr (Or.inl rfl)
      | true =>
        right
        refine ⟨s, Or.inl rfl, ?_⟩
        simp only [hw, hc, ha, Bool.not_true, Bool.not_false, Bool.false_and, Bool.true_and,
          Bool.and_false, Bool.and_true, Bool.and_self, if_true, if_false, ite_true, ite_false,
          Bool.false_eq_true, eq_self_iff_true, true_and]
        split
        · exact Or.inr (Or.inl rfl)
        · rename_i hcool
          split
          · rename_i hcond
            refine Or.inr (Or.inr ⟨3, Or.inr (Or.inr rfl), hcond.1, ?_, rfl⟩)
            intro t0 ht0
            rw [ht0] at hcool
            simp at hcool
            exact hcool
          · rename_i hcond3
            split
            · rename_i hcond
              refine Or.inr (Or.inr ⟨2, Or.inr (Or.inl rfl), hcond.1, ?_, rfl⟩)
              intro t0 ht0
              rw [ht0] at hcool
              simp at hcool
              exact hcool
            · rename_i hcond2
              split
              · rename_i hcond
                refine Or.inr (Or.inr ⟨1, Or.inl rfl, hcond.1, ?_, rfl⟩)
                intro t0 ht0
                rw [ht0] at hcool
                simp at hcool
                exact hcool
              · exact Or.inr (Or.inl rfl)

lemma update_eq_of_pair {d : Bool} {inp : TickInput} {s X : ReinforcementState}
    {o : Option Int} (hm : UpdateReinforcementStateFired d inp s = (X, o)) :
    UpdateReinforcementState d inp s = X ∧ firedWave d inp s = o := by
  unfold UpdateReinforcementState firedWave
  rw [hm]
  exact ⟨rfl, rfl⟩

lemma update_fired_eq (d : Bool) (inp : TickInput) (s : ReinforcementState) (w : Int)
    (h : firedWave d inp s = some w) :
    (w = 1 ∨ w = 2 ∨ w = 3) ∧ s.reinforcementWave < w ∧ inp.worldOk = true ∧
    inp.combatActive = true ∧
    (∀ t0, s.lastReinforcementTime = some t0 → 10 * 1000 ≤ inp.now - t0) ∧
    (UpdateReinforcementState d inp s).reinforcementWave = w ∧
    (UpdateReinforcementState d inp s).reinforcementActive = true ∧
    (UpdateReinforcementState d inp s).lastReinforcementTime = some inp.now := by
  rcases update_master d inp s with hm | ⟨s1, hs1, ⟨hc, hm⟩ | hm | hm⟩
  · rw [(update_eq_of_pair hm).2] at h; cases h
  · rw [(update_eq_of_pair hm).2] at h; cases h
  · rw [(update_eq_of_pair hm).2] at h; cases h
  · obtain ⟨w', hw', hlt, hwok, hca, hact, hcool, hm⟩ := hm
    obtain ⟨h1, h2⟩ := update_eq_of_pair hm
    rw [h2] at h
    injection h with hww
    subst hww
    rw [hwok] at h1
    refine ⟨hw', hlt, hwok, hca, hcool, ?_, ?_, ?_⟩
    · rw [h1]; exact trigger_wave d inp.now inp.spawnResults inp.heliResult w' s1
    · rw [h1, trigger_reinforcementActive]; exact hact
    · rw [h1]; exact trigger_last d inp.now inp.spawnResults inp.heliResult w' s1

lemma update_last_cases (d : Bool) (inp : TickInput) (s : ReinforcementState) :
    (UpdateReinforcementState d inp s).lastReinforcementTime = s.lastReinforcementTime ∨
    (UpdateReinforcementState d inp s).lastReinforcementTime = some inp.now := by
  rcases update_master d inp s with hm | ⟨s1, hs1, ⟨hc, hm⟩ | hm | hm⟩
  · rw [(update_eq_of_pair hm).1]; left; rfl
  · rw [(update_eq_of_pair hm).1]
    left
    rw [(reset_fields d s1).2.2.1]
    rcases hs1 with h' | h' <;> subst h' <;> rfl
  · rw [(update_eq_of_pair hm).1]
    left
    rcases hs1 with h' | h' <;> subst h' <;> rfl
  · obtain ⟨w', hw', hlt, hwok, hca, hact, hcool, hm⟩ := hm
    right
    rw [(update_eq_of_pair hm).1, hwok]
    exact trigger_last d inp.now inp.spawnResults inp.heliResult w' s1

/-- **C2**: on every coordinator tick, for every state (hence along
every sequence of detector results), the wave counter does not decrease
while the active flag stays `true`, and it is exactly 0 after every
tick at which the active flag transitions from `true` to `false`. -/
theorem wave_monotone_and_reset_to_zero (d : Bool) (inp : TickInput) (s : ReinforcementState) :
    (s.reinforcementActive = true →
      (UpdateReinforcementState d inp s).reinforcementActive = true →
      s.reinforcementWave ≤ (UpdateReinforcementState d inp s).reinforcementWave) ∧
    (s.reinforcementActive = true →
      (UpdateReinforcementState d inp s).reinforcementActive = false →
      (UpdateReinforcementState d inp s).reinforcementWave = 0) := by
  rcases update_master d inp s with hm | ⟨s1, hs1, ⟨hc, hm⟩ | hm | hm⟩
  · rw [(update_eq_of_pair hm).1]
    exact ⟨fun _ _ => le_refl _, fun ha hb => by rw [ha] at hb; cases hb⟩
  · rw [(update_eq_of_pair hm).1]
    refine ⟨fun ha hb => ?_, fun ha hb => (reset_fields d s1).2.1⟩
    rw [(reset_fields d s1).1] at hb
    cases hb
  · rw [(update_eq_of_pair hm).1]
    rcases hs1 with h' | h' <;> subst h'
    · exact ⟨fun _ _ => le_refl _, fun ha hb => by rw [ha] at hb; cases hb⟩
    · exact ⟨fun _ _ => le_refl _, fun ha hb => by cases hb⟩
  · obtain ⟨w', hw', hlt, hwok, hca, hact, hcool, hm⟩ := hm
    rw [(update_eq_of_pair hm).1, hwok]
    rw [trigger_wave d inp.now inp.spawnResults inp.heliResult w' s1]
    refine ⟨fun _ _ => le_of_lt hlt, fun ha hb => ?_⟩
    rw [trigger_reinforcementActive, hact] at hb
    cases hb

/-- Witness for `wave_monotone_and_reset_to_zero`: an engaged state at
wave 0 that fires wave 1 at 301 s keeps the counter non-decreasing. -/
theorem wave_monotone_and_reset_to_zero_witness :
    ({ combatStartTime := some 0, reinforcementActive := true, reinforcementWave := 0,
       lastReinforcementTime := none, reinforcementGroups := [],
       reinforcementHelicopters := [] } : ReinforcementState).reinforcementWave ≤
      (UpdateReinforcementState DEBUG_MODE
        { worldOk := true, now := 301000, combatActive := true, spawnResults := [some 4],
          heliResult := none }
        { combatStartTime := some 0, reinforcementActive := true, reinforcementWave := 0,
          lastReinforcementTime := none, reinforcementGroups := [],
          reinforcementHelicopters := [] }).reinforcementWave :=
  (wave_monotone_and_reset_to_zero DEBUG_MODE _ _).1 rfl (by decide)

/-- **C4**: whenever a wave fires on a tick and a previous wave's time
is recorded (`m_tLastReinforcementTime`), at least 10 seconds (10000 ms)
of simulation time have passed since that recorded time — regardless of
the detector results — and the firing tick records its own time as the
new last-wave time. -/
theorem cooldown_enforced (d : Bool) (inp : TickInput) (s : ReinforcementState) (w : Int)
    (hf : firedWave d inp s = some w) :
    (∀ t0, s.lastReinforcementTime = some t0 → 10 * 1000 ≤ inp.now - t0) ∧
    (UpdateReinforcementState d inp s).lastReinforcementTime = some inp.now := by
  obtain ⟨_, _, _, _, hcool, _, _, hlast⟩ := update_fired_eq d inp s w hf
  exact ⟨hcool, hlast⟩

/-- Witness for `cooldown_enforced`: wave 2 fires at 601 s with the
wave-1 time recorded at 301 s, 300 s after the previous wave. -/
theorem cooldown_enforced_witness :
    (10 * 1000 : Int) ≤ 601000 - 301000 ∧
    (UpdateReinforcementState DEBUG_MODE
      { worldOk := true, now := 601000, combatActive := true, spawnResults := [some 8],
        heliResult := none }
      { combatStartTime := some 0, reinforcementActive := true, reinforcementWave := 1,
        lastReinforcementTime := some 301000, reinforcementGroups := [7],
        reinforcementHelicopters := [] }).lastReinforcementTime = some 601000 :=
  ⟨(cooldown_enforced DEBUG_MODE
      { worldOk := true, now := 601000, combatActive := true, spawnResults := [some 8],
        heliResult := none }
      { combatStartTime := some 0, reinforcementActive := true, reinforcementWave := 1,
        lastReinforcementTime := some 301000, reinforcementGroups := [7],
        reinforcementHelicopters := [] } 2 (by decide)).1 301000 rfl,
   (cooldown_enforced DEBUG_MODE
      { worldOk := true, now := 601000, combatActive := true, spawnResults := [some 8],
        heliResult := none }
      { combatStartTime := some 0, reinforcementActive := true, reinforcementWave := 1,
        lastReinforcementTime := some 301000, reinforcementGroups := [7],
        reinforcementHelicopters := [] } 2 (by decide)).2⟩

/-- **C5** counterexample: starting from the initial state, one tick of
combat at t = 0 followed by one quiet tick at t = 30 s reaches a state
with `active = false` but `combatStartTime` still set to 0 — the iff
direction "set → active" fails — and `ResetReinforcementState` leaves a
set `combatStartTime` in place instead of clearing it. -/
theorem combatStartTime_stale_counterexample :
    (runTicks DEBUG_MODE initState
      [{ worldOk := true, now := 0, combatActive := true, spawnResults := [],
         heliResult := none },
       { worldOk := true, now := 30000, combatActive := false, spawnResults := [],
         heliResult := none }]).reinforcementActive = false ∧
    (runTicks DEBUG_MODE initState
      [{ worldOk := true, now := 0, combatActive := true, spawnResults := [],
         heliResult := none },
       { worldOk := true, now := 30000, combatActive := false, spawnResults := [],
         heliResult := none }]).combatStartTime = some 0 ∧
    (ResetReinforcementState DEBUG_MODE
      { combatStartTime := some 0, reinforcementActive := true, reinforcementWave := 1,
        lastReinforcementTime := some 5000, reinforcementGroups := [],
        reinforcementHelicopters := [] }).combatStartTime = some 0 := by
  refine ⟨rfl, rfl, rfl⟩

lemma update_start_invariant (d : Bool) (inp : TickInput) (s : ReinforcementState)
    (h : s.reinforcementActive = true → s.combatStartTime ≠ none) :
    (UpdateReinforcementState d inp s).reinforcementActive = true →
      (UpdateReinforcementState d inp s).combatStartTime ≠ none := by
  rcases update_master d inp s with hm | ⟨s1, hs1, ⟨hc, hm⟩ | hm | hm⟩
  · rw [(update_eq_of_pair hm).1]; exact h
  · rw [(update_eq_of_pair hm).1]
    intro hact
    rw [(reset_fields d s1).1] at hact
    cases hact
  · rw [(update_eq_of_pair hm).1]
    rcases hs1 with h' | h' <;> subst h'
    · exact h
    · intro _; simp
  · obtain ⟨w', hw', hlt, hwok, hca, hact, hcool, hm⟩ := hm
    rw [(update_eq_of_pair hm).1, hwok, trigger_combatStartTime]
    intro _
    rcases hs1 with h' | h' <;> subst h'
    · exact h hact
    · simp

lemma runTicks_start_invariant (d : Bool) (l : List TickInput) (s : ReinforcementState)
    (h : s.reinforcementActive = true → s.combatStartTime ≠ none) :
    (runTicks d s l).reinforcementActive = true → (runTicks d s l).combatStartTime ≠ none := by
  induction l generalizing s with
  | nil => exact h
  | cons i t ih =>
    simp only [runTicks, List.foldl_cons] at *
    exact ih (UpdateReinforcementState d i s) (update_start_invariant d i s h)

/-- **C5** amended: in every state reachable from the initial state,
`combatStartTime` is set whenever `active == true`; the reset on the
true→false transition clears the active flag and the wave counter but
leaves `combatStartTime` unchanged, so a stale start time may persist
while `active == false` (the converse direction of the claimed iff does
not hold). -/
theorem combatStartTime_set_when_active (d : Bool) (l : List TickInput) :
    ((runTicks d initState l).reinforcementActive = true →
      (runTicks d initState l).combatStartTime ≠ none) ∧
    (∀ s : ReinforcementState,
      (ResetReinforcementState d s).combatStartTime = s.combatStartTime ∧
      (ResetReinforcementState d s).reinforcementActive = false ∧
      (ResetReinforcementState d s).reinforcementWave = 0) :=
  ⟨runTicks_start_invariant d l initState (fun h => by cases h),
   fun s => ⟨(reset_fields d s).2.2.2, (reset_fields d s).1, (reset_fields d s).2.1⟩⟩

/-- Witness for `combatStartTime_set_when_active`: after a single
combat tick at t = 1 s the state is active and the start time is set. -/
theorem combatStartTime_set_when_active_witness :
    (runTicks DEBUG_MODE initState
      [{ worldOk := true, now := 1000, combatActive := true, spawnResults := [],
         heliResult := none }]).combatStartTime ≠ none :=
  (combatStartTime_set_when_active DEBUG_MODE
    [{ worldOk := true, now := 1000, combatActive := true, spawnResults := [],
       heliResult := none }]).1 (by decide)

lemma runTicks_cons (d : Bool) (i : TickInput) (l : List TickInput) (s : ReinforcementState) :
    runTicks d s (i :: l) = runTicks d (UpdateReinforcementState d i s) l := rfl

lemma runTicks_append (d : Bool) (s : ReinforcementState) (l1 l2 : List TickInput) :
    runTicks d s (l1 ++ l2) = runTicks d (runTicks d s l1) l2 := by
  simp [runTicks, List.foldl_append]

lemma runTicks_last_lower (d : Bool) (l : List TickInput) :
    ∀ (s : ReinforcementState) (t0 : Timestamp),
      s.lastReinforcementTime = some t0 →
      l.Pairwise (fun a b => a.now ≤ b.now) →
      (∀ i ∈ l, t0 ≤ i.now) →
      ∃ t, (runTicks d s l).lastReinforcementTime = some t ∧ t0 ≤ t := by
  induction l with
  | nil => exact fun s t0 h _ _ => ⟨t0, h, le_refl t0⟩
  | cons i tl ih =>
    intro s t0 h hmono hl
    rw [List.pairwise_cons] at hmono
    rw [runTicks_cons]
    rcases update_last_cases d i s with hc | hc
    · exact ih _ t0 (hc.trans h) hmono.2 fun j hj => hl j (List.mem_cons_of_mem _ hj)
    · obtain ⟨t, ht, hge⟩ := ih _ i.now hc hmono.2 fun j hj => hmono.1 j hj
      exact ⟨t, ht, le_trans (hl i (List.mem_cons_self _ _)) hge⟩

/-- **C10**: the reset performed when combat ends clears the active
flag and the wave counter but not the last-wave timestamp, so the
10-second cooldown spans engagement boundaries: along any run with
non-decreasing simulation times, any wave firing after an earlier
firing at time `a.now` — through any number of resets and
re-engagements in between — fires no earlier than 10 seconds
(10000 ms) after it. -/
theorem cooldown_spans_engagements (d : Bool) (s0 : ReinforcementState)
    (l1 l2 : List TickInput) (a b : TickInput) (w w' : Int)
    (hmono : (l1 ++ a :: (l2 ++ [b])).Pairwise (fun x y => x.now ≤ y.now))
    (hfa : firedWave d a (runTicks d s0 l1) = some w)
    (hfb : firedWave d b (runTicks d s0 (l1 ++ a :: l2)) = some w') :
    10 * 1000 ≤ b.now - a.now ∧
    (∀ s : ReinforcementState,
      (ResetReinforcementState d s).lastReinforcementTime = s.lastReinforcementTime ∧
      (ResetReinforcementState d s).reinforcementActive = false ∧
      (ResetReinforcementState d s).reinforcementWave = 0) := by
  have h2 := (List.pairwise_append.mp hmono).2.1
  rw [List.pairwise_cons] at h2
  have hal2b : ∀ j ∈ l2 ++ [b], a.now ≤ j.now := h2.1
  have hl2 : l2.Pairwise (fun x y => x.now ≤ y.now) := (List.pairwise_append.mp h2.2).1
  obtain ⟨_, _, _, _, _, _, _, hlastA⟩ :=
    update_fired_eq d a (runTicks d s0 l1) w hfa
  obtain ⟨t, ht, hge⟩ := runTicks_last_lower d l2
    (UpdateReinforcementState d a (runTicks d s0 l1)) a.now hlastA hl2
    (fun j hj => hal2b j (List.mem_append_left _ hj))
  rw [runTicks_append, runTicks_cons] at hfb
  obtain ⟨_, _, _, _, hcoolb, _, _, _⟩ := update_fired_eq d b _ w' hfb
  have hbt := hcoolb t ht
  constructor
  · exact le_trans hbt (sub_le_sub_left hge b.now)
  · exact fun s => ⟨(reset_fields d s).2.2.1, (reset_fields d s).1, (reset_fields d s).2.1⟩

/-- Witness for `cooldown_spans_engagements`: wave 1 fires at 301 s,
combat breaks at 302 s (reset), re-engages at 303 s, and the
re-engagement's first wave fires at 603 s — 302 s after the earlier
firing. -/
theorem cooldown_spans_engagements_witness : (10 * 1000 : Int) ≤ 603000 - 301000 :=
  (cooldown_spans_engagements DEBUG_MODE initState
    [{ worldOk := true, now := 0, combatActive := true, spawnResults := [],
       heliResult := none }]
    [{ worldOk := true, now := 302000, combatActive := false, spawnResults := [],
       heliResult := none },
     { worldOk := true, now := 303000, combatActive := true, spawnResults := [],
       heliResult := none }]
    { worldOk := true, now := 301000, combatActive := true, spawnResults := [some 4],
      heliResult := none }
    { worldOk := true, now := 603000, combatActive := true, spawnResults := [some 5],
      heliResult := none }
    1 1 (by decide) (by decide) (by decide)).1

lemma update_engaged (d : Bool) (inp : TickInput) (s : ReinforcementState)
    (ha : s.reinforcementActive = true) (hc : inp.combatActive = true) :
    (UpdateReinforcementState d inp s).reinforcementActive = true ∧
    s.reinforcementWave ≤ (UpdateReinforcementState d inp s).reinforcementWave := by
  rcases update_master d inp s with hm | ⟨s1, hs1, ⟨hcf, hm⟩ | hm | hm⟩
  · rw [(update_eq_of_pair hm).1]; exact ⟨ha, le_refl _⟩
  · rw [hc] at hcf; cases hcf
  · rw [(update_eq_of_pair hm).1]
    rcases hs1 with h' | h' <;> subst h'
    · exact ⟨ha, le_refl _⟩
    · exact ⟨rfl, le_refl _⟩
  · obtain ⟨w', hw', hlt, hwok, hca, hact, hcool, hm⟩ := hm
    rw [(update_eq_of_pair hm).1, hwok]
    rw [trigger_wave d inp.now inp.spawnResults inp.heliResult w' s1,
      trigger_reinforcementActive]
    exact ⟨hact, le_of_lt hlt⟩

lemma runTicks_engaged (d : Bool) (l : List TickInput) :
    ∀ s : ReinforcementState, s.reinforcementActive = true →
      (∀ i ∈ l, i.combatActive = true) →
      (runTicks d s l).reinforcementActive = true ∧
      s.reinforcementWave ≤ (runTicks d s l).reinforcementWave := by
  induction l with
  | nil => exact fun s ha _ => ⟨ha, le_refl _⟩
  | cons i tl ih =>
    intro s ha hall
    rw [runTicks_cons]
    obtain ⟨ha', hle⟩ := update_engaged d i s ha (hall i (List.mem_cons_self _ _))
    obtain ⟨ha'', hle'⟩ := ih _ ha' fun j hj => hall j (List.mem_cons_of_mem _ hj)
    exact ⟨ha'', le_trans hle hle'⟩

/-- **C3**: on any tick where the machine is engaged, the world
resolves and the 10-second cooldown has elapsed, the wave that fires
(if any) is exactly the highest-numbered evaluated wave whose number
exceeds `currentWave` and whose threshold is at most the elapsed combat
time (the source evaluates waves 3, 2, 1 highest-first; its wave-4
dispatch is commented out, and `firedWave` being a single `Option`
makes "at most one wave per tick" structural).  Moreover, along any
continuing engagement, later fired waves are strictly greater, so a
skipped lower wave never fires later in that engagement. -/
theorem highest_wave_fires (d : Bool) (inp : TickInput) (s : ReinforcementState)
    (hw : inp.worldOk = true) (hc : inp.combatActive = true)
    (ha : s.reinforcementActive = true)
    (hcool : ∀ t0, s.lastReinforcementTime = some t0 → 10 * 1000 ≤ inp.now - t0) :
    (∀ w : Int, firedWave d inp s = some w ↔
       ((w = 1 ∨ w = 2 ∨ w = 3) ∧ s.reinforcementWave < w ∧
        GetWaveThreshold d w * 1000 ≤ inp.now - s.combatStartTime.getD 0 ∧
        ∀ w', (w' = 1 ∨ w' = 2 ∨ w' = 3) → s.reinforcementWave < w' →
          GetWaveThreshold d w' * 1000 ≤ inp.now - s.combatStartTime.getD 0 → w' ≤ w)) ∧
    (∀ (l2 : List TickInput) (b : TickInput) (w w' : Int),
       (∀ i ∈ l2, i.combatActive = true) →
       firedWave d inp s = some w →
       firedWave d b (runTicks d (UpdateReinforcementState d inp s) l2) = some w' →
       w < w') := by
  constructor
  · intro w
    have hcoolb : (match s.lastReinforcementTime with
        | some t0 => decide (inp.now - t0 < 10 * 1000)
        | none => false) = false := by
      cases hl : s.lastReinforcementTime with
      | none => rfl
      | some t0 =>
        simp only [decide_eq_false_iff_not, not_lt]
        exact hcool t0 hl
    unfold firedWave UpdateReinforcementStateFired
    simp only [hw, hc, ha, hcoolb, Bool.not_true, Bool.not_false, Bool.false_and,
      Bool.true_and, Bool.and_false, Bool.and_true, Bool.and_self, if_true, if_false,
      ite_true, ite_false, Bool.false_eq_true]
    by_cases h3 : s.reinforcementWave < 3 ∧
        GetWaveThreshold d 3 * 1000 ≤ inp.now - s.combatStartTime.getD 0
    · simp only [h3, if_true]
      constructor
      · intro h
        injection h with h
        subst h
        refine ⟨Or.inr (Or.inr rfl), h3.1, h3.2, ?_⟩
        rintro w' (rfl | rfl | rfl) _ _
        · decide
        · decide
        · exact le_refl _
      · rintro ⟨hor, _, _, hmax⟩
        have h33 : (3 : Int) ≤ w := hmax 3 (Or.inr (Or.inr rfl)) h3.1 h3.2
        have : w = 3 := by rcases hor with rfl | rfl | rfl <;> omega
        subst this
        rfl
    · simp only [h3, if_false]
      by_cases h2 : s.reinforcementWave < 2 ∧
          GetWaveThreshold d 2 * 1000 ≤ inp.now - s.combatStartTime.getD 0
      · simp only [h2, if_true]
        constructor
        · intro h
          injection h with h
          subst h
          refine ⟨Or.inr (Or.inl rfl), h2.1, h2.2, ?_⟩
          rintro w' (rfl | rfl | rfl) hlt hth
          · decide
          · exact le_refl _
          · exact absurd ⟨hlt, hth⟩ h3
        · rintro ⟨hor, hlt, hth, hmax⟩
          have h22 : (2 : Int) ≤ w := hmax 2 (Or.inr (Or.inl rfl)) h2.1 h2.2
          rcases hor with rfl | rfl | rfl
          · omega
          · rfl
          · exact absurd ⟨hlt, hth⟩ h3
      · simp only [h2, if_false]
        by_cases h1 : s.reinforcementWave < 1 ∧
            GetWaveThreshold d 1 * 1000 ≤ inp.now - s.combatStartTime.getD 0
        · simp only [h1, if_true]
          constructor
          · intro h
            injection h with h
            subst h
            refine ⟨Or.inl rfl, h1.1, h1.2, ?_⟩
            rintro w' (rfl | rfl | rfl) hlt hth
            · exact le_refl _
            · exact absurd ⟨hlt, hth⟩ h2
            · exact absurd ⟨hlt, hth⟩ h3
          · rintro ⟨hor, hlt, hth, hmax⟩
            rcases hor with rfl | rfl | rfl
            · rfl
            · exact absurd ⟨hlt, hth⟩ h2
            · exact absurd ⟨hlt, hth⟩ h3
        · simp only [h1, if_false]
          constructor
          · intro h; cases h
          · rintro ⟨hor, hlt, hth, _⟩
            rcases hor with rfl | rfl | rfl
            · exact absurd ⟨hlt, hth⟩ h1
            · exact absurd ⟨hlt, hth⟩ h2
            · exact absurd ⟨hlt, hth⟩ h3
  · intro l2 b w w' hall hfa hfb
    obtain ⟨_, _, _, _, _, hwave, hactive, _⟩ := update_fired_eq d inp s w hfa
    obtain ⟨ha2, hle⟩ := runTicks_engaged d l2 _ hactive hall
    obtain ⟨_, hlt', _, _, _, _, _, _⟩ := update_fired_eq d b _ w' hfb
    rw [hwave] at hle
    exact lt_of_le_of_lt hle hlt'

/-- Witness for `highest_wave_fires`: with the normal thresholds
({300 s, 600 s, 900 s}), elapsed combat time 625 s and
`currentWave = 0`, the tick fires exactly wave 2 (wave 1 is skipped). -/
theorem highest_wave_fires_witness :
    firedWave DEBUG_MODE
      { worldOk := true, now := 625000, combatActive := true, spawnResults := [some 3],
        heliResult := none }
      { combatStartTime := some 0, reinforcementActive := true, reinforcementWave := 0,
        lastReinforcementTime := none, reinforcementGroups := [],
        reinforcementHelicopters := [] } = some 2 :=
  ((highest_wave_fires DEBUG_MODE
      { worldOk := true, now := 625000, combatActive := true, spawnResults := [some 3],
        heliResult := none }
      { combatStartTime := some 0, reinforcementActive := true, reinforcementWave := 0,
        lastReinforcementTime := none, reinforcementGroups := [],
        reinforcementHelicopters := [] }
      rfl rfl rfl (fun t0 h => by cases h)).1 2).mpr
    ⟨Or.inr (Or.inl rfl), by decide, by decide, fun w' hor hlt hth => by
      rcases hor with rfl | rfl | rfl
      · decide
      · decide
      · exact absurd hth (by decide)⟩

lemma foldl_min_le_init (l : List Int) (a : Int) : l.foldl min a ≤ a := by
  induction l generalizing a with
  | nil => exact le_refl a
  | cons x tl ih => exact le_trans (ih (min a x)) (min_le_left a x)

lemma foldl_min_le_mem (l : List Int) (a : Int) : ∀ x ∈ l, l.foldl min a ≤ x := by
  induction l generalizing a with
  | nil => intro x hx; cases hx
  | cons y tl ih =>
    intro x hx
    rcases List.mem_cons.mp hx with rfl | hx
    · exact le_trans (foldl_min_le_init tl (min a x)) (min_le_right a x)
    · exact ih (min a y) x hx

lemma foldl_min_mem (l : List Int) (a : Int) : l.foldl min a = a ∨ l.foldl min a ∈ l := by
  induction l generalizing a with
  | nil => left; rfl
  | cons x tl ih =>
    rw [List.foldl_cons]
    rcases ih (min a x) with h | h
    · rw [h]
      rcases min_choice a x with h' | h'
      · left; exact h'
      · right; rw [h']; exact List.mem_cons_self x tl
    · right; exact List.mem_cons_of_mem x h

lemma foldl_min_eq_init_iff (l : List Int) (a : Int) :
    l.foldl min a = a ↔ ∀ x ∈ l, a ≤ x := by
  constructor
  · intro h x hx
    rw [← h]
    exact foldl_min_le_mem l a x hx
  · intro h
    rcases foldl_min_mem l a with he | he
    · exact he
    · exact le_antisymm (foldl_min_le_init l a) (h _ he)

lemma foldl_min_perm {l l' : List Int} (h : l.Perm l') (a : Int) :
    l.foldl min a = l'.foldl min a := by
  apply le_antisymm
  · rcases foldl_min_mem l' a with he | he
    · rw [he]; exact foldl_min_le_init l a
    · exact foldl_min_le_mem l a _ (h.mem_iff.mpr he)
  · rcases foldl_min_mem l a with he | he
    · rw [he]; exact foldl_min_le_init l' a
    · exact foldl_min_le_mem l' a _ (h.mem_iff.mp he)

lemma elect_foldl_eq_min (nb : Option Nat) (l : List SpawnPointM) (a : Int)
    (hl : ∀ sp ∈ l, sp.isDefender = true ∧ sp.nearBase = nb) :
    l.foldl (fun low sp =>
        if sp.isDefender && decide (sp.nearBase = nb) && decide (sp.entityId < low)
        then sp.entityId else low) a
      = (l.map SpawnPointM.entityId).foldl min a := by
  induction l generalizing a with
  | nil => rfl
  | cons x tl ih =>
    obtain ⟨hd, hb⟩ := hl x (List.mem_cons_self x tl)
    rw [List.foldl_cons, List.map_cons, List.foldl_cons]
    have hstep : (if x.isDefender && decide (x.nearBase = nb) && decide (x.entityId < a)
        then x.entityId else a) = min a x.entityId := by
      by_cases h : x.entityId < a
      · simp [hd, hb, h, min_eq_right (le_of_lt h)]
      · simp [hd, hb, h, min_eq_left (not_lt.mp h)]
    rw [hstep]
    exact ih (min a x.entityId) fun sp hsp => hl sp (List.mem_cons_of_mem x hsp)

lemma nodup_all_eq_singleton {α : Type} {l : List α} {a : α}
    (hn : l.Nodup) (ha : a ∈ l) (hall : ∀ x ∈ l, x = a) : l = [a] := by
  cases l with
  | nil => cases ha
  | cons x tl =>
    have hx : x = a := hall x (List.mem_cons_self x tl)
    subst hx
    cases tl with
    | nil => rfl
    | cons y tl2 =>
      have hy : y = x := hall y (List.mem_cons_of_mem x (List.mem_cons_self y tl2))
      subst hy
      rw [List.nodup_cons] at hn
      exact absurd (List.mem_cons_self y tl2) hn.1

/-- **C6**: over any nonempty set of defender spawn points sharing the
same resolved strongpoint, with pairwise-distinct entity ids, the
member marked coordinator by `InitializeReinforcementCoordinator` is
exactly the one with the minimum id (so exactly one member is marked
coordinator), and the election result is invariant under permuting the
registration order of the set. -/
theorem coordinator_election_spec (b : Nat) (all : List SpawnPointM)
    (hne : all ≠ [])
    (hdef : ∀ sp ∈ all, sp.isDefender = true)
    (hbase : ∀ sp ∈ all, sp.nearBase = some b)
    (hnodup : (all.map SpawnPointM.entityId).Nodup) :
    (∀ sp ∈ all, (InitializeReinforcementCoordinator sp true all = true ↔
       ∀ sp' ∈ all, sp.entityId ≤ sp'.entityId)) ∧
    (all.filter (fun sp => InitializeReinforcementCoordinator sp true all)).length = 1 ∧
    (∀ all', all.Perm all' → ∀ sp ∈ all,
       InitializeReinforcementCoordinator sp true all =
       InitializeReinforcementCoordinator sp true all') := by
  have hchar : ∀ sp ∈ all, (InitializeReinforcementCoordinator sp true all = true ↔
      ∀ sp' ∈ all, sp.entityId ≤ sp'.entityId) := by
    intro sp hsp
    unfold InitializeReinforcementCoordinator
    rw [hbase sp hsp]
    have hemp : all.isEmpty = false := by
      cases all with
      | nil => cases hne rfl
      | cons x tl => rfl
    simp only [Bool.not_true, hemp, if_false, Bool.false_eq_true, ite_false, ite_true,
      decide_eq_true_eq]
    rw [elect_foldl_eq_min (some b) all sp.entityId
      (fun sp' hsp' => ⟨hdef sp' hsp', (hbase sp' hsp').trans (hbase sp hsp).symm ▸ hbase sp' hsp'⟩)]
    rw [eq_comm, foldl_min_eq_init_iff]
    constructor
    · intro h sp' hsp'
      exact h sp'.entityId (List.mem_map_of_mem SpawnPointM.entityId hsp')
    · intro h x hx
      obtain ⟨sp', hsp', rfl⟩ := List.mem_map.mp hx
      exact h sp' hsp'
  refine ⟨hchar, ?_, ?_⟩
  · obtain ⟨sp0, hsp0, hmin0⟩ : ∃ sp0 ∈ all, ∀ sp' ∈ all, sp0.entityId ≤ sp'.entityId := by
      cases hall : all with
      | nil => exact absurd hall hne
      | cons x tl =>
        have hmem := foldl_min_mem (tl.map SpawnPointM.entityId) x.entityId
        have hle1 := foldl_min_le_init (tl.map SpawnPointM.entityId) x.entityId
        have hle2 := foldl_min_le_mem (tl.map SpawnPointM.entityId) x.entityId
        rcases hmem with he | he
        · refine ⟨x, List.mem_cons_self x tl, ?_⟩
          intro sp' hsp'
          rcases List.mem_cons.mp hsp' with rfl | hsp'
          · exact le_refl _
          · rw [← he]
            exact hle2 _ (List.mem_map_of_mem SpawnPointM.entityId hsp')
        · obtain ⟨sp0, hsp0, hid⟩ := List.mem_map.mp he
          refine ⟨sp0, List.mem_cons_of_mem x hsp0, ?_⟩
          intro sp' hsp'
          rcases List.mem_cons.mp hsp' with rfl | hsp'
          · rw [hid]; exact hle1
          · rw [hid]
            exact hle2 _ (List.mem_map_of_mem SpawnPointM.entityId hsp')
    have hinj : ∀ x ∈ all, ∀ y ∈ all, x.entityId = y.entityId → x = y :=
      List.inj_on_of_nodup_map hnodup
    have hmem0 : sp0 ∈ all.filter (fun sp => InitializeReinforcementCoordinator sp true all) := by
      rw [List.mem_filter]
      exact ⟨hsp0, (hchar sp0 hsp0).mpr hmin0⟩
    have hall0 : ∀ x ∈ all.filter (fun sp => InitializeReinforcementCoordinator sp true all),
        x = sp0 := by
      intro x hx
      rw [List.mem_filter] at hx
      have hminx := (hchar x hx.1).mp hx.2
      exact hinj x hx.1 sp0 hsp0
        (le_antisymm (hminx sp0 hsp0) (hmin0 x hx.1))
    rw [nodup_all_eq_singleton ((hnodup.of_map).filter _) hmem0 hall0]
    rfl
  · intro all' hperm sp hsp
    have hsp' : sp ∈ all' := hperm.mem_iff.mp hsp
    unfold InitializeReinforcementCoordinator
    rw [hbase sp hsp]
    have hemp : all.isEmpty = false := by
      cases all with
      | nil => cases hne rfl
      | cons x tl => rfl
    have hemp' : all'.isEmpty = false := by
      cases hall' : all' with
      | nil => rw [hall'] at hsp'; cases hsp'
      | cons x tl => rfl
    simp only [Bool.not_true, hemp, hemp', if_false, Bool.false_eq_true, ite_false, ite_true]
    rw [elect_foldl_eq_min (some b) all sp.entityId
      (fun sp' h => ⟨hdef sp' h, hbase sp' h⟩),
      elect_foldl_eq_min (some b) all' sp.entityId
      (fun sp' h => ⟨hdef sp' (hperm.mem_iff.mpr h), hbase sp' (hperm.mem_iff.mpr h)⟩),
      foldl_min_perm (hperm.map SpawnPointM.entityId) sp.entityId]

/-- Witness for `coordinator_election_spec`: three defender spawn
points with ids {5, 3, 9} at the same base elect exactly one
coordinator (the one with id 3). -/
theorem coordinator_election_spec_witness :
    (([{ entityId := 5, nearBase := some 1, isDefender := true },
       { entityId := 3, nearBase := some 1, isDefender := true },
       { entityId := 9, nearBase := some 1, isDefender := true }] : List SpawnPointM).filter
      (fun sp => InitializeReinforcementCoordinator sp true
        [{ entityId := 5, nearBase := some 1, isDefender := true },
         { entityId := 3, nearBase := some 1, isDefender := true },
         { entityId := 9, nearBase := some 1, isDefender := true }])).length = 1 :=
  (coordinator_election_spec 1
    [{ entityId := 5, nearBase := some 1, isDefender := true },
     { entityId := 3, nearBase := some 1, isDefender := true },
     { entityId := 9, nearBase := some 1, isDefender := true }]
    (by decide) (by decide) (by decide) (by decide)).2.1

lemma guard_step_cases (g : GuardTick) (st : Option Timestamp) (base : BaseM)
    (hb : g.base = some base) (hf : IsBaseFriendly base g.playerManager = true) :
    (frontlineAt g = true ∧ ShouldKeepDefendersActive g st = (true, none)) ∨
    (frontlineAt g = false ∧ g.worldOk = false ∧
      ShouldKeepDefendersActive g st = (true, st)) ∨
    (frontlineAt g = false ∧ g.worldOk = true ∧ st = none ∧
      ShouldKeepDefendersActive g st = (true, some g.now)) ∨
    (∃ t0, frontlineAt g = false ∧ g.worldOk = true ∧ st = some t0 ∧
      ((INACTIVE_GRACE_PERIOD * 1000 ≤ g.now - t0 ∧
          ShouldKeepDefendersActive g st = (false, some t0)) ∨
       (¬(INACTIVE_GRACE_PERIOD * 1000 ≤ g.now - t0) ∧
          ShouldKeepDefendersActive g st = (true, some t0)))) := by
  have hfr : frontlineAt g = IsBaseOnFrontline g.env base.pos := by
    unfold frontlineAt
    rw [hb]
  unfold ShouldKeepDefendersActive
  rw [hb]
  simp only [hf, Bool.not_true, Bool.false_eq_true, if_false, ite_false, ite_true]
  cases hfl : IsBaseOnFrontline g.env base.pos with
  | true => left; exact ⟨hfr.trans hfl, by simp [hfl]⟩
  | false =>
    simp only [hfl, Bool.false_eq_true, if_false, ite_false]
    cases hwo : g.worldOk with
    | false =>
      right; left
      exact ⟨hfr.trans hfl, rfl, by simp [hwo]⟩
    | true =>
      simp only [hwo, Bool.not_true, Bool.false_eq_true, if_false, ite_false]
      cases hst : st with
      | none =>
        right; right; left
        exact ⟨hfr.trans hfl, by trivial, by trivial, by simp⟩
      | some t0 =>
        right; right; right
        refine ⟨t0, hfr.trans hfl, by trivial, by trivial, ?_⟩
        by_cases hgr : INACTIVE_GRACE_PERIOD * 1000 ≤ g.now - t0
        · left; exact ⟨hgr, by simp [hgr]⟩
        · right; exact ⟨hgr, by simp [hgr]⟩

lemma guardRun_append (l1 l2 : List GuardTick) (st : Option Timestamp) :
    guardRun (l1 ++ l2) st = guardRun l2 (guardRun l1 st) := by
  simp [guardRun, List.foldl_append]

lemma guardRun_window (l : List GuardTick)
    (hres : ∀ g ∈ l, ∃ base, g.base = some base ∧
      IsBaseFriendly base g.playerManager = true) :
    guardRun l none = none ∨
    ∃ l1 x l2, l = l1 ++ x :: l2 ∧ guardRun l none = some x.now ∧
      frontlineAt x = false ∧ x.worldOk = true ∧ ∀ y ∈ l2, frontlineAt y = false := by
  induction l using List.reverseRecOn with
  | nil => left; rfl
  | append_singleton l' g ih =>
    have hres' : ∀ g' ∈ l', ∃ base, g'.base = some base ∧
        IsBaseFriendly base g'.playerManager = true :=
      fun g' h => hres g' (List.mem_append_left _ h)
    obtain ⟨base, hb, hf⟩ := hres g (List.mem_append_right _ (List.mem_singleton.mpr rfl))
    have hstep := guard_step_cases g (guardRun l' none) base hb hf
    have happ : guardRun (l' ++ [g]) none =
        (ShouldKeepDefendersActive g (guardRun l' none)).2 := by
      rw [guardRun_append]
      rfl
    rcases ih hres' with hnone | ⟨l1, x, l2, hsplit, hval, hfx, hwx, hl2⟩
    · rcases hstep with ⟨_, he⟩ | ⟨_, _, he⟩ | ⟨hfg, hwg, _, he⟩ | ⟨t0, _, _, hst, _⟩
      · left; rw [happ, he]
      · left; rw [happ, he, hnone]
      · right
        exact ⟨l', g, [], rfl, by rw [happ, he], hfg, hwg, fun y hy => absurd hy
          (List.not_mem_nil y)⟩
      · rw [hnone] at hst; cases hst
    · rcases hstep with ⟨_, he⟩ | ⟨hfg, _, he⟩ | ⟨_, _, hst, _⟩ | ⟨t0, hfg, _, hst, hgr⟩
      · left; rw [happ, he]
      · right
        refine ⟨l1, x, l2 ++ [g], by rw [hsplit, List.append_assoc]; rfl, ?_, hfx, hwx, ?_⟩
        · rw [happ, he, hval]
        · intro y hy
          rcases List.mem_append.mp hy with hy | hy
          · exact hl2 y hy
          · rw [List.mem_singleton.mp hy]; exact hfg
      · rw [hval] at hst; cases hst
      · right
        refine ⟨l1, x, l2 ++ [g], by rw [hsplit, List.append_assoc]; rfl, ?_, hfx, hwx, ?_⟩
        · rw [hval] at hst
          injection hst with hst
          rcases hgr with ⟨_, he⟩ | ⟨_, he⟩ <;> rw [happ, he, hst]
        · intro y hy
          rcases List.mem_append.mp hy with hy | hy
          · exact hl2 y hy
          · rw [List.mem_singleton.mp hy]; exact hfg

/-- **C9**: for friendly-held strongpoints, the guard answers `false`
only at a tick preceded by a contiguous run of non-frontline
classifications whose first tick (the one that started the inactivity
timer) lies at least `INACTIVE_GRACE_PERIOD` seconds (600 s, in ms)
in the past — so at least 600 continuous seconds of non-frontline
classification since the last frontline observation; any single
frontline tick clears the timer and answers `true`; and any unresolved
game-mode / base-manager / faction-manager collaborator makes
`IsBaseOnFrontline` fail open to `true`. -/
theorem guard_grace_period (l : List GuardTick) (b : GuardTick)
    (hres : ∀ g ∈ l ++ [b], ∃ base, g.base = some base ∧
      IsBaseFriendly base g.playerManager = true)
    (hfalse : (ShouldKeepDefendersActive b (guardRun l none)).1 = false) :
    (∃ l1 x l2, l = l1 ++ x :: l2 ∧ frontlineAt x = false ∧ x.worldOk = true ∧
       (∀ y ∈ l2, frontlineAt y = false) ∧ frontlineAt b = false ∧
       INACTIVE_GRACE_PERIOD * 1000 ≤ b.now - x.now) ∧
    (∀ (g : GuardTick) (st : Option Timestamp) (base : BaseM),
       g.base = some base → IsBaseFriendly base g.playerManager = true →
       frontlineAt g = true → ShouldKeepDefendersActive g st = (true, none)) ∧
    (∀ (env : FrontlineEnv) (p : Vec3),
       env.gameModeOk = false ∨ env.baseManagerOk = false ∨ env.factionManagerOk = false ∨
       env.campaignFactionOk = false ∨ env.enemyFaction = none →
       IsBaseOnFrontline env p = true) := by
  refine ⟨?_, ?_, ?_⟩
  · obtain ⟨baseb, hbb, hfb⟩ := hres b (List.mem_append_right _ (List.mem_singleton.mpr rfl))
    rcases guard_step_cases b (guardRun l none) baseb hbb hfb with
      ⟨_, he⟩ | ⟨_, _, he⟩ | ⟨_, _, _, he⟩ | ⟨t0, hfg, hwg, hst, hgr⟩
    · rw [he] at hfalse; cases hfalse
    · rw [he] at hfalse; cases hfalse
    · rw [he] at hfalse; cases hfalse
    · rcases hgr with ⟨hge, _⟩ | ⟨_, he⟩
      · rcases guardRun_window l (fun g h => hres g (List.mem_append_left _ h)) with
          hnone | ⟨l1, x, l2, hsplit, hval, hfx, hwx, hl2⟩
        · rw [hnone] at hst; cases hst
        · rw [hval] at hst
          injection hst with hst
          exact ⟨l1, x, l2, hsplit, hfx, hwx, hl2, hfg, hst ▸ hge⟩
      · rw [he] at hfalse; cases hfalse
  · intro g st base hb hf hfr
    have hfl : IsBaseOnFrontline g.env base.pos = true := by
      unfold frontlineAt at hfr
      rw [hb] at hfr
      exact hfr
    unfold ShouldKeepDefendersActive
    rw [hb]
    simp [hf, hfl]
  · intro env p hmiss
    unfold IsBaseOnFrontline
    rcases hmiss with h | h | h | h | h <;> simp [h]

/-- Witness for `guard_grace_period`: a friendly base observed
non-frontline at t = 0 (timer starts) and still non-frontline at
t = 600 s is marked for teardown exactly then: the grace window of the
run `[x]` followed by `b` satisfies the theorem's conclusion. -/
theorem guard_grace_period_witness :
    ∃ l1 x l2,
      ([{ base := some { faction := some 1, pos := (0, 0, 0) },
          playerManager := some [{ hasEntity := true, hasController := true, isDead := false,
                                   isCharacter := true, faction := some 1, pos := (0, 0, 0) }],
          env := { gameModeOk := true, baseManagerOk := true, factionManagerOk := true,
                   campaignFactionOk := true, enemyFaction := some [] },
          worldOk := true, now := 0 }] : List GuardTick) = l1 ++ x :: l2 ∧
      frontlineAt x = false ∧ x.worldOk = true ∧
      (∀ y ∈ l2, frontlineAt y = false) ∧
      frontlineAt
        ({ base := some { faction := some 1, pos := (0, 0, 0) },
           playerManager := some [{ hasEntity := true, hasController := true, isDead := false,
                                    isCharacter := true, faction := some 1, pos := (0, 0, 0) }],
           env := { gameModeOk := true, baseManagerOk := true, factionManagerOk := true,
                    campaignFactionOk := true, enemyFaction := some [] },
           worldOk := true, now := 600000 } : GuardTick) = false ∧
      INACTIVE_GRACE_PERIOD * 1000 ≤
        ({ base := some { faction := some 1, pos := (0, 0, 0) },
           playerManager := some [{ hasEntity := true, hasController := true, isDead := false,
                                    isCharacter := true, faction := some 1, pos := (0, 0, 0) }],
           env := { gameModeOk := true, baseManagerOk := true, factionManagerOk := true,
                    campaignFactionOk := true, enemyFaction := some [] },
           worldOk := true, now := 600000 } : GuardTick).now - x.now :=
  (guard_grace_period
    [{ base := some { faction := some 1, pos := (0, 0, 0) },
       playerManager := some [{ hasEntity := true, hasController := true, isDead := false,
                                isCharacter := true, faction := some 1, pos := (0, 0, 0) }],
       env := { gameModeOk := true, baseManagerOk := true, factionManagerOk := true,
                campaignFactionOk := true, enemyFaction := some [] },
       worldOk := true, now := 0 }]
    { base := some { faction := some 1, pos := (0, 0, 0) },
      playerManager := some [{ hasEntity := true, hasController := true, isDead := false,
                               isCharacter := true, faction := some 1, pos := (0, 0, 0) }],
      env := { gameModeOk := true, baseManagerOk := true, factionManagerOk := true,
               campaignFactionOk := true, enemyFaction := some [] },
      worldOk := true, now := 600000 }
    (by
      intro g hg
      simp only [List.mem_append, List.mem_cons, List.mem_singleton,
        List.not_mem_nil, or_false] at hg
      rcases hg with rfl | rfl
      · exact ⟨{ faction := some 1, pos := (0, 0, 0) }, rfl, by decide⟩
      · exact ⟨{ faction := some 1, pos := (0, 0, 0) }, rfl, by decide⟩)
    (by decide)).1

end IPC
